import Mathlib

/-!
# Verification of the weather data processing pipeline (src/Nika.py)

Shallow embedding of the cleaning/transformation pipeline of `Nika.py`:
`clean_weather_data` (group imputation, structural drop, multi-format date
parsing, Fahrenheit derivation, categorical normalization, final filter) and
the top-5 aggregation of `save_data_and_generate_report`.

Modelling conventions:
* A pandas DataFrame is a `List` of row structures; a nullable cell is an
  `Option`; numeric cells are `ℚ` (the claims under study are exact
  arithmetic facts; float rounding is not at issue in any of them).
* Python exceptions that escape a function are modelled by `Option` results
  (`none` = the call raised).  In particular `round(nan)` raises
  `ValueError` ("cannot convert float NaN to integer"): `np.float64` is a
  subclass of Python `float` and `float.__round__` of a NaN raises, so the
  imputation lambda `x.fillna(round(x.mean()))` raises on a group whose
  column is entirely null (its mean is NaN).
* `pd.to_datetime(s, format=f)` is modelled by `strptime`-style matching
  (fields `%d`/`%m` match 1–2 digits with ranges 1–31 / 1–12, `%Y` exactly
  4 digits, literal separators, whole-string match) followed by calendar
  validation and the pandas `Timestamp` nanosecond range check
  (`Timestamp.min` = 1677-09-21 00:12:43.145..., `Timestamp.max` =
  2262-04-11 23:47:16.854...; midnights are representable exactly for
  1677-09-22 through 2262-04-11).  Both a failed match and an
  out-of-bounds date raise `ValueError` (`OutOfBoundsDatetime` subclasses
  `ValueError`), which `custom_date_parser` catches and turns into the
  next attempt / `NaT`; `NaT` is modelled by `none`.
* Strings are ASCII in all the data this pipeline handles; `str.strip` and
  `str.title` are modelled at that granularity (`Char.isWhitespace`,
  `Char.isAlpha`, ASCII case maps).
-/

unseal Rat.add Rat.mul Rat.inv Rat.sub

/-- Python `round` with no digits: round half to even (banker's rounding),
as `float.__round__` does. -/
def roundHalfEven (q : ℚ) : ℤ :=
  if q - Int.floor q < 1/2 then Int.floor q
  else if (1 : ℚ)/2 < q - Int.floor q then Int.floor q + 1
  else if Int.floor q % 2 = 0 then Int.floor q else Int.floor q + 1

/-- Arithmetic mean of a list of rationals (pandas `Series.mean` over the
non-null values). -/
def meanQ (l : List ℚ) : ℚ := l.sum / (l.length : ℚ)

/-! ## String helpers: `str.strip` and `str.title` -/

/-- Python `str.strip()`: remove leading and trailing whitespace. -/
def pyStrip (l : List Char) : List Char :=
  ((l.dropWhile Char.isWhitespace).reverse.dropWhile Char.isWhitespace).reverse

/-- Worker for `str.title()`: a letter is uppercased when the previous
character is not a letter, lowercased otherwise (Python treats maximal runs
of cased characters as words; for ASCII, cased = alphabetic). -/
def pyTitleGo : Bool → List Char → List Char
  | _, [] => []
  | prevAlpha, c :: cs =>
    (if c.isAlpha then (if prevAlpha then c.toLower else c.toUpper) else c)
      :: pyTitleGo c.isAlpha cs

/-- Python `str.title()`. -/
def pyTitle (l : List Char) : List Char := pyTitleGo false l

/-- Python `str(x)` on a cell that is either a string or NaN:
`str(nan) = "nan"`. -/
def pyStr : Option String → String
  | none => "nan"
  | some s => s

/-- `convert_to_string_and_capitalize` from `clean_weather_data` step 5:
`str(data).strip().title()`. -/
def convert_to_string_and_capitalize (v : Option String) : String :=
  String.mk (pyTitle (pyStrip (pyStr v).toList))

/-- Modelled from the spec: the spec describes the normalizer as
"title-case capitalization (first letter of each whitespace-separated word
uppercased, remainder lowercased)"; this definition follows those words,
for comparison with `convert_to_string_and_capitalize`. -/
def specTitleWordsGo : Bool → List Char → List Char
  | _, [] => []
  | atStart, c :: cs =>
    if c.isWhitespace then c :: specTitleWordsGo true cs
    else (if atStart then c.toUpper else c.toLower) :: specTitleWordsGo false cs

/-- Modelled from the spec: normalizer per the spec's words — convert to
string, strip, then capitalize the first letter of each
whitespace-separated word and lowercase the remainder. -/
def specNormalize (v : Option String) : String :=
  String.mk (specTitleWordsGo true (pyStrip (pyStr v).toList))

/-- All strings obtained from a given character list by choosing upper or
lower case independently at each position. -/
def caseVariants : List Char → List (List Char)
  | [] => [[]]
  | c :: cs =>
    (caseVariants cs).map (c.toLower :: ·) ++ (caseVariants cs).map (c.toUpper :: ·)

/-- `s` is a case/whitespace variant of `"unknown"`: after stripping
leading/trailing whitespace it is `"unknown"` up to per-letter case. -/
def isUnknownVariant (s : String) : Bool :=
  (caseVariants "unknown".toList).contains (pyStrip s.toList)

/-! ## Date parsing: `custom_date_parser` -/

/-- A parsed calendar date (pandas `Timestamp` at day granularity). -/
structure Date where
  year : ℕ
  month : ℕ
  day : ℕ
  deriving DecidableEq

/-- A field of a `strptime` format string. -/
inductive DateField
  | day
  | month
  | year
  deriving DecidableEq

/-- Numeric value of a digit string (most significant first). -/
def digitsVal (ds : List Char) : ℕ :=
  ds.foldl (fun a c => a * 10 + (c.toNat - 48)) 0

/-- Match one `strptime` field at the head of the input: `%d`/`%m` match one
or two digits with values 1–31 / 1–12, `%Y` exactly four digits.  Returns
the value and the rest of the input. -/
def parseField (f : DateField) (l : List Char) : Option (ℕ × List Char) :=
  let ds := l.takeWhile Char.isDigit
  let rest := l.dropWhile Char.isDigit
  let v := digitsVal ds
  match f with
  | .year => if ds.length = 4 then some (v, rest) else none
  | .month =>
    if (ds.length = 1 ∨ ds.length = 2) ∧ 1 ≤ v ∧ v ≤ 12 then some (v, rest) else none
  | .day =>
    if (ds.length = 1 ∨ ds.length = 2) ∧ 1 ≤ v ∧ v ≤ 31 then some (v, rest) else none

/-- Gregorian leap year. -/
def isLeapYear (y : ℕ) : Bool :=
  y % 4 == 0 && (y % 100 != 0 || y % 400 == 0)

/-- Number of days in a month. -/
def daysInMonth (y m : ℕ) : ℕ :=
  if m = 2 then (if isLeapYear y then 29 else 28)
  else if m = 4 ∨ m = 6 ∨ m = 9 ∨ m = 11 then 30 else 31

/-- `datetime` construction succeeds: year in `MINYEAR..9999` (4-digit by
`%Y`), month 1–12, day within the month. -/
def validDate (y m d : ℕ) : Bool :=
  decide (1 ≤ y) && decide (y ≤ 9999) && decide (1 ≤ m) && decide (m ≤ 12) &&
    decide (1 ≤ d) && decide (d ≤ daysInMonth y m)

/-- Lexicographic comparison of calendar dates given componentwise. -/
def lexLe (y1 m1 d1 y2 m2 d2 : ℕ) : Bool :=
  decide (y1 < y2 ∨ (y1 = y2 ∧ (m1 < m2 ∨ (m1 = m2 ∧ d1 ≤ d2))))

/-- Midnight of the given day is representable as a pandas nanosecond
`Timestamp` (otherwise `to_datetime` raises `OutOfBoundsDatetime`, a
`ValueError`). -/
def tsInBounds (y m d : ℕ) : Bool :=
  lexLe 1677 9 22 y m d && lexLe y m d 2262 4 11

/-- `pd.to_datetime` after a successful pattern match: calendar validation
plus the `Timestamp` range check; `none` models a raised `ValueError`. -/
def toTimestamp (y m d : ℕ) : Option Date :=
  if validDate y m d && tsInBounds y m d then some ⟨y, m, d⟩ else none

/-- Value assigned to a field tag by the matched fields. -/
def getField (t : DateField) (l : List (DateField × ℕ)) : ℕ :=
  (((l.find? (fun p => p.1 == t)).map (·.2)).getD 0)

/-- `pd.to_datetime(s, format)` for a three-field format with a single
literal separator, `exact=True` (the whole string must match). -/
def parse3 (f1 f2 f3 : DateField) (sep : Char) (l : List Char) : Option Date :=
  match parseField f1 l with
  | none => none
  | some (v1, r1) =>
    match r1 with
    | [] => none
    | c1 :: t1 =>
      if c1 = sep then
        match parseField f2 t1 with
        | none => none
        | some (v2, r2) =>
          match r2 with
          | [] => none
          | c2 :: t2 =>
            if c2 = sep then
              match parseField f3 t2 with
              | none => none
              | some (v3, r3) =>
                if r3.isEmpty then
                  toTimestamp
                    (getField .year [(f1, v1), (f2, v2), (f3, v3)])
                    (getField .month [(f1, v1), (f2, v2), (f3, v3)])
                    (getField .day [(f1, v1), (f2, v2), (f3, v3)])
                else none
            else none
      else none

/-- The fixed ordered format list of `custom_date_parser`:
`"%d-%m-%Y", "%d.%m.%Y", "%m/%d/%Y", "%Y-%m-%d", "%d/%m/%Y", "%m-%d-%Y",
"%m.%d.%Y", "%Y.%m.%d", "%Y/%m/%d"`. -/
def formatList : List ((DateField × DateField × DateField) × Char) :=
  [ ((.day, .month, .year), '-'),
    ((.day, .month, .year), '.'),
    ((.month, .day, .year), '/'),
    ((.year, .month, .day), '-'),
    ((.day, .month, .year), '/'),
    ((.month, .day, .year), '-'),
    ((.month, .day, .year), '.'),
    ((.year, .month, .day), '.'),
    ((.year, .month, .day), '/') ]

/-- One `pd.to_datetime(date, format=fmt)` attempt. -/
def tryFormat (fmt : (DateField × DateField × DateField) × Char) (l : List Char) :
    Option Date :=
  parse3 fmt.1.1 fmt.1.2.1 fmt.1.2.2 fmt.2 l

/-- The `for fmt in (...)` loop: first successful parse wins; every
`ValueError` is caught and the next format is tried. -/
def firstParse : List ((DateField × DateField × DateField) × Char) → List Char → Option Date
  | [], _ => none
  | f :: fs, l =>
    match tryFormat f l with
    | some dt => some dt
    | none => firstParse fs l

/-- `custom_date_parser`: try each format in order, return the first
successful parse, `NaT` (= `none`) if none matches. -/
def customDateParser (s : String) : Option Date :=
  firstParse formatList s.toList

/-! ## Rows and the cleaning pipeline -/

/-- A raw input row (relevant columns of the CSV). -/
structure RawRow where
  city : String
  date : Option String
  weather_condition : Option String
  temperature_celsius : Option ℚ
  humidity_percent : Option ℚ
  wind_speed_kph : Option ℚ
  deriving DecidableEq

/-- A row after date parsing (step 3). -/
structure ParsedRow where
  city : String
  date : Option Date
  weather_condition : Option String
  temperature_celsius : Option ℚ
  humidity_percent : Option ℚ
  wind_speed_kph : Option ℚ
  deriving DecidableEq

/-- A row after the Fahrenheit column is added (step 4). -/
structure FahrRow where
  city : String
  date : Option Date
  weather_condition : Option String
  temperature_celsius : Option ℚ
  humidity_percent : Option ℚ
  wind_speed_kph : Option ℚ
  temperature_fahrenheit : Option ℚ
  deriving DecidableEq

/-- A fully cleaned row (after step 5 the condition is a non-null string). -/
structure CleanRow where
  city : String
  date : Option Date
  weather_condition : String
  temperature_celsius : Option ℚ
  humidity_percent : Option ℚ
  wind_speed_kph : Option ℚ
  temperature_fahrenheit : Option ℚ
  deriving DecidableEq

/-- The non-null values of column `get` among the rows of city `c`
(the series a `groupby('city')` hands to the imputation lambda, minus its
nulls). -/
def cityVals (df : List RawRow) (get : RawRow → Option ℚ) (c : String) : List ℚ :=
  df.filterMap (fun r => if r.city = c then get r else none)

/-- The cell value after `x.fillna(round(x.mean()))` for row `r`: a non-null
cell is kept; a null cell is filled with the city's mean rounded half to
even.  The `none` branch for an empty group is unreachable when the fill is
actually run (see `imputeCol`): there `round(nan)` raises instead. -/
def fillCell (df : List RawRow) (get : RawRow → Option ℚ) (r : RawRow) : Option ℚ :=
  match get r with
  | some v => some v
  | none =>
    if (cityVals df get r.city).isEmpty then none
    else some ((roundHalfEven (meanQ (cityVals df get r.city)) : ℤ) : ℚ)

/-- The imputation lambda runs `round(x.mean())` for every city group
(eagerly, before `fillna`), so the transform raises `ValueError` as soon as
some city's column is entirely null (NaN mean). -/
def colOk (df : List RawRow) (get : RawRow → Option ℚ) : Bool :=
  df.all (fun r => !(cityVals df get r.city).isEmpty)

/-- `df.groupby('city')[col].transform(lambda x: x.fillna(round(x.mean())))`
assigned back to the column: `none` models the raised `ValueError` when some
city group has no non-null value in the column. -/
def imputeCol (df : List RawRow) (get : RawRow → Option ℚ)
    (set : RawRow → Option ℚ → RawRow) : Option (List RawRow) :=
  if colOk df get then some (df.map (fun r => set r (fillCell df get r))) else none

/-- Step 2: `df.dropna(subset=['date', 'weather_condition'])`. -/
def dropNullDateCond (df : List RawRow) : List RawRow :=
  df.filter (fun r => r.date.isSome && r.weather_condition.isSome)

/-- Step 3: `df['date'] = df['date'].apply(custom_date_parser)`
(`custom_date_parser` maps a NaN cell to `NaT`). -/
def parseDateRow (r : RawRow) : ParsedRow :=
  { city := r.city
    date := r.date.bind customDateParser
    weather_condition := r.weather_condition
    temperature_celsius := r.temperature_celsius
    humidity_percent := r.humidity_percent
    wind_speed_kph := r.wind_speed_kph }

/-- Step 4: `df['temperature_fahrenheit'] = df['temperature_celsius'] * 9 / 5 + 32`
(NaN propagates). -/
def addFahrenheit (r : ParsedRow) : FahrRow :=
  { city := r.city
    date := r.date
    weather_condition := r.weather_condition
    temperature_celsius := r.temperature_celsius
    humidity_percent := r.humidity_percent
    wind_speed_kph := r.wind_speed_kph
    temperature_fahrenheit := r.temperature_celsius.map (fun c => c * 9 / 5 + 32) }

/-- Step 5: apply `convert_to_string_and_capitalize` to `weather_condition`. -/
def normalizeCondition (r : FahrRow) : CleanRow :=
  { city := r.city
    date := r.date
    weather_condition := convert_to_string_and_capitalize r.weather_condition
    temperature_celsius := r.temperature_celsius
    humidity_percent := r.humidity_percent
    wind_speed_kph := r.wind_speed_kph
    temperature_fahrenheit := r.temperature_fahrenheit }

/-- Column accessor for `temperature_celsius`. -/
def getTc (r : RawRow) : Option ℚ := r.temperature_celsius

/-- Column accessor for `humidity_percent`. -/
def getHp (r : RawRow) : Option ℚ := r.humidity_percent

/-- Column accessor for `wind_speed_kph`. -/
def getWs (r : RawRow) : Option ℚ := r.wind_speed_kph

/-- Column update for `temperature_celsius`. -/
def setTc (r : RawRow) (v : Option ℚ) : RawRow := { r with temperature_celsius := v }

/-- Column update for `humidity_percent`. -/
def setHp (r : RawRow) (v : Option ℚ) : RawRow := { r with humidity_percent := v }

/-- Column update for `wind_speed_kph`. -/
def setWs (r : RawRow) (v : Option ℚ) : RawRow := { r with wind_speed_kph := v }

/-- `clean_weather_data`: the six pipeline stages in source order.  `none`
models an uncaught exception escaping the function (the only one possible
here is the `ValueError` from `round(nan)` during imputation). -/
def clean_weather_data (df : List RawRow) : Option (List CleanRow) :=
  match imputeCol df getTc setTc with
  | none => none
  | some d1 =>
    match imputeCol d1 getHp setHp with
    | none => none
    | some d2 =>
      match imputeCol d2 getWs setWs with
      | none => none
      | some d3 =>
        some ((((dropNullDateCond d3).map parseDateRow).map addFahrenheit).map
          normalizeCondition |>.filter (fun r => r.weather_condition != "Unknown"))

/-! ## Top-5 aggregation of `save_data_and_generate_report` -/

/-- Python string comparison: lexicographic on code points. -/
def strLeb : List Char → List Char → Bool
  | [], _ => true
  | _ :: _, [] => false
  | a :: as, b :: bs =>
    if a.toNat < b.toNat then true
    else if a.toNat = b.toNat then strLeb as bs
    else false

/-- The distinct cities of the cleaned table in ascending order:
`groupby('city')` sorts the group keys (`sort=True` is the default) by
Python string comparison. -/
def sortedCities (df : List CleanRow) : List String :=
  ((df.map (·.city)).dedup).insertionSort (fun a b => strLeb a.toList b.toList = true)

/-- Mean temperature of a city over the cleaned table (`Series.mean`,
skipping nulls; `none` = NaN mean of an all-null group). -/
def cityMeanTemp (df : List CleanRow) (c : String) : Option ℚ :=
  let vs := df.filterMap (fun r => if r.city = c then r.temperature_celsius else none)
  if vs.isEmpty then none else some (meanQ vs)

/-- `df.groupby('city')['temperature_celsius'].mean()`: one entry per
distinct city, keyed in ascending city order. -/
def avgTempByCity (df : List CleanRow) : List (String × Option ℚ) :=
  (sortedCities df).map (fun c => (c, cityMeanTemp df c))

/-- Comparison used by `sort_values(ascending=False)` on nullable means:
NaN sorts last (`na_position='last'`). -/
def optBle (a b : Option ℚ) : Bool :=
  match a, b with
  | none, _ => true
  | some _, none => false
  | some x, some y => decide (x ≤ y)

/-- `.sort_values(ascending=False)` on the city-keyed mean series. -/
def sortDescByMean (l : List (String × Option ℚ)) : List (String × Option ℚ) :=
  l.insertionSort (fun a b => optBle b.2 a.2 = true)

/-- `df.groupby('city')['temperature_celsius'].mean().sort_values(ascending=False).head(5)`. -/
def topFiveAvgTemp (df : List CleanRow) : List (String × Option ℚ) :=
  (sortDescByMean (avgTempByCity df)).take 5

/-! ## Concrete tables used by witnesses and counterexamples -/

/-- Row literal shorthand for concrete tables. -/
def mkRow (c : String) (dt cond : Option String) (t h w : Option ℚ) : RawRow :=
  ⟨c, dt, cond, t, h, w⟩

/-- The scenario table of the spec: city `X` with temperatures null, 10, 20. -/
def rowX0 : RawRow := mkRow "X" (some "2020-01-01") (some "rain") none (some 50) (some 5)

/-- Second scenario row (temperature 10). -/
def rowX1 : RawRow := mkRow "X" (some "2020-01-02") (some "rain") (some 10) (some 50) (some 5)

/-- Third scenario row (temperature 20). -/
def rowX2 : RawRow := mkRow "X" (some "2020-01-03") (some "rain") (some 20) (some 50) (some 5)

/-- The three-row scenario table. -/
def scenarioDf : List RawRow := [rowX0, rowX1, rowX2]

/-- City X with temperatures null, 15, 16: mean 15.5. -/
def dfHalfOdd : List RawRow :=
  [mkRow "X" none none none none none,
   mkRow "X" none none (some 15) none none,
   mkRow "X" none none (some 16) none none]

/-- City X with temperatures null, 14, 15: mean 14.5. -/
def dfHalfEven : List RawRow :=
  [mkRow "X" none none none none none,
   mkRow "X" none none (some 14) none none,
   mkRow "X" none none (some 15) none none]

/-- The input row of the witness for `fahrenheit_column_correct`. -/
def dfW1 : List RawRow :=
  [mkRow "X" (some "01/02/2020") (some " rain ") (some 20) (some 50) (some 5)]

/-- The cleaned row produced from `dfW1`. -/
def rowW1 : CleanRow :=
  ⟨"X", some ⟨2020, 1, 2⟩, "Rain", some 20, some 50, some 5, some 68⟩

/-- Witness table for `unparsed_dates_retained`: one row with an
unparseable date. -/
def dfW7 : List RawRow :=
  [mkRow "X" (some "junk") (some "rain") (some 1) (some 2) (some 3)]

/-- The cleaned row produced from `dfW7`. -/
def rowW7 : CleanRow := ⟨"X", none, "Rain", some 1, some 2, some 3, some (169/5)⟩

/-- All-variant one-row table with an all-null temperature group. -/
def dfU0 : List RawRow := [mkRow "X" (some "2020-01-01") (some "unknown") none none none]

/-- One-row table with a kept condition. -/
def dfW3 : List RawRow := [mkRow "X" (some "2020-01-01") (some "rain") (some 1) (some 1) (some 1)]

/-- The cleaned row produced from `dfW3`. -/
def rowW3 : CleanRow := ⟨"X", some ⟨2020, 1, 1⟩, "Rain", some 1, some 1, some 1, some (169/5)⟩

/-- All-variant one-row table whose imputation succeeds. -/
def dfU1 : List RawRow :=
  [mkRow "X" (some "2020-01-01") (some " UNKNOWN ") (some 1) (some 1) (some 1)]

/-- Cleaned-row literal shorthand. -/
def mkClean (c : String) (t : Option ℚ) : CleanRow := ⟨c, none, "Rain", t, none, none, none⟩

/-- Six cities with mean temperatures 30, 28, 25, 20, 18, 10. -/
def sixDf : List CleanRow :=
  [mkClean "A" (some 30), mkClean "B" (some 28), mkClean "C" (some 25),
   mkClean "D" (some 20), mkClean "E" (some 18), mkClean "F" (some 10)]

/-- Two cities, first encountered `"B"` then `"A"`, with equal means. -/
def tieDf : List CleanRow := [mkClean "B" (some 10), mkClean "A" (some 10)]

/-- Two-digit zero-padded decimal rendering. -/
def pad2 (n : ℕ) : List Char := [Nat.digitChar (n / 10), Nat.digitChar (n % 10)]

/-- Four-digit zero-padded decimal rendering. -/
def pad4 (n : ℕ) : List Char :=
  [Nat.digitChar (n / 1000), Nat.digitChar (n / 100 % 10),
   Nat.digitChar (n / 10 % 10), Nat.digitChar (n % 10)]

/-- The `YYYY-MM-DD` serialization of a calendar date, as characters. -/
def isoChars (y m d : ℕ) : List Char := pad4 y ++ '-' :: (pad2 m ++ '-' :: pad2 d)

/-- The `YYYY-MM-DD` serialization of a calendar date. -/
def isoString (y m d : ℕ) : String := String.mk (isoChars y m d)

/-! ## Helper lemmas -/

@[simp] lemma setTc_city (r : RawRow) (v : Option ℚ) : (setTc r v).city = r.city := rfl

@[simp] lemma setHp_city (r : RawRow) (v : Option ℚ) : (setHp r v).city = r.city := rfl

@[simp] lemma setWs_city (r : RawRow) (v : Option ℚ) : (setWs r v).city = r.city := rfl

@[simp] lemma setTc_date (r : RawRow) (v : Option ℚ) : (setTc r v).date = r.date := rfl

@[simp] lemma setHp_date (r : RawRow) (v : Option ℚ) : (setHp r v).date = r.date := rfl

@[simp] lemma setWs_date (r : RawRow) (v : Option ℚ) : (setWs r v).date = r.date := rfl

@[simp] lemma setTc_cond (r : RawRow) (v : Option ℚ) :
    (setTc r v).weather_condition = r.weather_condition := rfl

@[simp] lemma setHp_cond (r : RawRow) (v : Option ℚ) :
    (setHp r v).weather_condition = r.weather_condition := rfl

@[simp] lemma setWs_cond (r : RawRow) (v : Option ℚ) :
    (setWs r v).weather_condition = r.weather_condition := rfl

@[simp] lemma parseDateRow_city (r : RawRow) : (parseDateRow r).city = r.city := rfl

@[simp] lemma parseDateRow_date (r : RawRow) :
    (parseDateRow r).date = r.date.bind customDateParser := rfl

@[simp] lemma parseDateRow_cond (r : RawRow) :
    (parseDateRow r).weather_condition = r.weather_condition := rfl

@[simp] lemma addFahrenheit_city (r : ParsedRow) : (addFahrenheit r).city = r.city := rfl

@[simp] lemma addFahrenheit_date (r : ParsedRow) : (addFahrenheit r).date = r.date := rfl

@[simp] lemma addFahrenheit_cond (r : ParsedRow) :
    (addFahrenheit r).weather_condition = r.weather_condition := rfl

@[simp] lemma addFahrenheit_tc (r : ParsedRow) :
    (addFahrenheit r).temperature_celsius = r.temperature_celsius := rfl

@[simp] lemma addFahrenheit_tf (r : ParsedRow) :
    (addFahrenheit r).temperature_fahrenheit
      = r.temperature_celsius.map (fun c => c * 9 / 5 + 32) := rfl

@[simp] lemma normalizeCondition_city (r : FahrRow) : (normalizeCondition r).city = r.city := rfl

@[simp] lemma normalizeCondition_date (r : FahrRow) : (normalizeCondition r).date = r.date := rfl

@[simp] lemma normalizeCondition_cond (r : FahrRow) :
    (normalizeCondition r).weather_condition
      = convert_to_string_and_capitalize r.weather_condition := rfl

@[simp] lemma normalizeCondition_tc (r : FahrRow) :
    (normalizeCondition r).temperature_celsius = r.temperature_celsius := rfl

@[simp] lemma normalizeCondition_tf (r : FahrRow) :
    (normalizeCondition r).temperature_fahrenheit = r.temperature_fahrenheit := rfl

/-- A successful imputation is the column-wise fill map. -/
lemma imputeCol_map {df : List RawRow} {get : RawRow → Option ℚ}
    {set : RawRow → Option ℚ → RawRow} {out : List RawRow}
    (h : imputeCol df get set = some out) :
    out = df.map (fun r => set r (fillCell df get r)) := by
  unfold imputeCol at h
  split at h
  · exact (Option.some.injEq _ _ ▸ h).symm
  · exact absurd h (by simp)

/-- If some row's city has no non-null value in the column, the imputation
lambda evaluates `round` of a NaN mean and raises. -/
lemma imputeCol_none_of_empty_group {df : List RawRow} {get : RawRow → Option ℚ}
    (set : RawRow → Option ℚ → RawRow) {r : RawRow}
    (hr : r ∈ df) (hc : cityVals df get r.city = []) :
    imputeCol df get set = none := by
  unfold imputeCol
  have : colOk df get = false := by
    unfold colOk
    rw [List.all_eq_false]
    exact ⟨r, hr, by simp [hc]⟩
  simp [this]

/-- Structure of a successful `clean_weather_data` run. -/
lemma clean_eq {df : List RawRow} {out : List CleanRow}
    (h : clean_weather_data df = some out) :
    ∃ d1 d2 d3,
      imputeCol df getTc setTc = some d1 ∧
      imputeCol d1 getHp setHp = some d2 ∧
      imputeCol d2 getWs setWs = some d3 ∧
      out = ((((dropNullDateCond d3).map parseDateRow).map addFahrenheit).map
          normalizeCondition).filter (fun r => r.weather_condition != "Unknown") := by
  unfold clean_weather_data at h
  split at h
  · exact absurd h (by simp)
  · split at h
    · exact absurd h (by simp)
    · split at h
      · exact absurd h (by simp)
      · simp only [Option.some.injEq] at h
        exact ⟨_, _, _, by assumption, by assumption, by assumption, h.symm⟩

/-- If every format attempt fails, the loop falls through. -/
lemma firstParse_none {fs : List ((DateField × DateField × DateField) × Char)}
    {l : List Char} (h : ∀ f ∈ fs, tryFormat f l = none) :
    firstParse fs l = none := by
  induction fs with
  | nil => rfl
  | cons f fs ih =>
    unfold firstParse
    rw [h f (List.mem_cons_self f fs)]
    exact ih (fun g hg => h g (List.mem_cons_of_mem f hg))

/-- C4: `custom_date_parser` tries the fixed ordered format list
`%d-%m-%Y, %d.%m.%Y, %m/%d/%Y, %Y-%m-%d, %d/%m/%Y, %m-%d-%Y, %m.%d.%Y,
%Y.%m.%d, %Y/%m/%d` and returns the first successful parse; `"01/02/2020"`
parses as month 1, day 2, year 2020 because `%m/%d/%Y` is tried before
`%d/%m/%Y` (which alone would have yielded February 1). -/
theorem format_precedence_mdy_before_dmy :
    formatList =
      [ ((.day, .month, .year), '-'), ((.day, .month, .year), '.'),
        ((.month, .day, .year), '/'), ((.year, .month, .day), '-'),
        ((.day, .month, .year), '/'), ((.month, .day, .year), '-'),
        ((.month, .day, .year), '.'), ((.year, .month, .day), '.'),
        ((.year, .month, .day), '/') ] ∧
    customDateParser "01/02/2020" = some ⟨2020, 1, 2⟩ ∧
    tryFormat ((.day, .month, .year), '-') "01/02/2020".toList = none ∧
    tryFormat ((.day, .month, .year), '.') "01/02/2020".toList = none ∧
    tryFormat ((.month, .day, .year), '/') "01/02/2020".toList = some ⟨2020, 1, 2⟩ ∧
    tryFormat ((.day, .month, .year), '/') "01/02/2020".toList = some ⟨2020, 2, 1⟩ := by
  refine ⟨rfl, ?_, ?_, ?_, ?_, ?_⟩ <;> decide

/-- C6: the date parser never propagates an exception: every
`pd.to_datetime` failure is a caught `ValueError` (modelled by `none`), and
when no format in the chain matches, the parser returns the missing-date
marker `NaT` (`none`) instead of raising. -/
theorem date_parser_no_match_gives_nat (s : String)
    (h : ∀ f ∈ formatList, tryFormat f s.toList = none) :
    customDateParser s = none :=
  firstParse_none h

/-- Witness for `date_parser_no_match_gives_nat` at the unparseable input
`"hello"`. -/
theorem date_parser_no_match_gives_nat_witness :
    customDateParser "hello" = none :=
  date_parser_no_match_gives_nat "hello" (by decide)

/-- C8 (counterexample): the normalizer does not title-case by
whitespace-separated words: on `"a-b"` the code produces `"A-B"` (Python
`str.title` starts a new word at every non-letter), while the claimed
whitespace-word semantics would produce `"A-b"`. -/
theorem normalizer_counterexample :
    convert_to_string_and_capitalize (some "a-b") = "A-B" ∧
    specNormalize (some "a-b") = "A-b" ∧
    ("A-B" : String) ≠ "A-b" := by
  refine ⟨?_, ?_, ?_⟩ <;> decide

/-- C8 (amended): the normalizer returns the string conversion of the value
(`str`, so a null becomes `"nan"`), strips leading/trailing whitespace, and
applies Python `str.title` capitalization: the first letter of each maximal
run of consecutive letters is uppercased and the other letters are
lowercased (word boundaries are non-letters, not just whitespace).  In
particular `"  rain "` normalizes to `"Rain"`, a null input to `"Nan"`, and
`"a-b"` to `"A-B"`. -/
theorem normalizer_strip_title :
    (∀ v : Option String,
      convert_to_string_and_capitalize v
        = String.mk (pyTitle (pyStrip (pyStr v).toList))) ∧
    convert_to_string_and_capitalize (some "  rain ") = "Rain" ∧
    convert_to_string_and_capitalize none = "Nan" ∧
    convert_to_string_and_capitalize (some "a-b") = "A-B" := by
  refine ⟨fun v => rfl, ?_, ?_, ?_⟩ <;> decide

/-- Python `round` rounds an exact half to the even neighbour. -/
lemma roundHalfEven_add_half (k : ℤ) :
    roundHalfEven ((k : ℚ) + 1/2) = if k % 2 = 0 then k else k + 1 := by
  unfold roundHalfEven
  have hfl : Int.floor ((k : ℚ) + 1/2) = k := by
    rw [add_comm, Int.floor_add_int, Int.floor_eq_zero_iff.mpr (by norm_num)]
    ring
  rw [hfl]
  have hd : ((k : ℚ) + 1/2) - k = 1/2 := by ring
  rw [hd, if_neg (by norm_num), if_neg (by norm_num)]

/-- C2 (amended): a successful imputation pass is the fill map: every
non-null cell is kept, and every null cell is replaced by the rounded mean
of the non-null values of its city group (in particular the spec scenario
null/10/20 for city X becomes 15/10/20); but if some city group has zero
non-null values in the column, the pass raises a `ValueError`
(`round` of a NaN mean) instead of leaving that group's rows null. -/
theorem imputation_group_mean :
    (∀ (df : List RawRow) (get : RawRow → Option ℚ) (set : RawRow → Option ℚ → RawRow)
        (out : List RawRow), imputeCol df get set = some out →
        out = df.map (fun r => set r (fillCell df get r))) ∧
    (∀ (df : List RawRow) (get : RawRow → Option ℚ) (r : RawRow) (v : ℚ),
        get r = some v → fillCell df get r = some v) ∧
    (∀ (df : List RawRow) (get : RawRow → Option ℚ) (r : RawRow),
        get r = none → cityVals df get r.city ≠ [] →
        fillCell df get r
          = some ((roundHalfEven (meanQ (cityVals df get r.city)) : ℤ) : ℚ)) ∧
    (∀ (df : List RawRow) (get : RawRow → Option ℚ) (set : RawRow → Option ℚ → RawRow)
        (r : RawRow), r ∈ df → cityVals df get r.city = [] →
        imputeCol df get set = none) ∧
    (imputeCol scenarioDf getTc setTc).map (fun l => l.map getTc)
      = some [some 15, some 10, some 20] := by
  refine ⟨fun df get set out h => imputeCol_map h, ?_, ?_, ?_, by decide⟩
  · intro df get r v h
    unfold fillCell
    rw [h]
  · intro df get r h hne
    have he : (cityVals df get r.city).isEmpty = false := by
      simpa using hne
    unfold fillCell
    rw [h, he]
    simp
  · intro df get set r hr hc
    exact imputeCol_none_of_empty_group set hr hc

/-- Witness for `imputation_group_mean`: in the spec scenario the null
temperature of city X is filled with 15 (the rounded mean of 10 and 20). -/
theorem imputation_group_mean_witness :
    fillCell scenarioDf getTc rowX0
      = some ((roundHalfEven (meanQ (cityVals scenarioDf getTc rowX0.city)) : ℤ) : ℚ) ∧
    fillCell scenarioDf getTc rowX0 = some 15 := by
  refine ⟨imputation_group_mean.2.2.1 scenarioDf getTc rowX0 rfl (by decide), by decide⟩

/-- C2 (counterexample): a city group with zero non-null values does not
keep its nulls — the imputation (and hence `clean_weather_data`) raises:
on a one-row table whose only `temperature_celsius` is null, the transform
returns an error (`none`), not a table. -/
theorem imputation_empty_group_counterexample :
    cityVals [mkRow "Y" (some "2020-01-01") (some "rain") none (some 50) (some 5)]
        getTc "Y" = [] ∧
    imputeCol [mkRow "Y" (some "2020-01-01") (some "rain") none (some 50) (some 5)]
        getTc setTc = none ∧
    clean_weather_data [mkRow "Y" (some "2020-01-01") (some "rain") none (some 50) (some 5)]
      = none := by
  refine ⟨by decide, by decide, by decide⟩

/-- C10: the rounding used by the imputation is Python's built-in `round`,
which rounds an exact half to the nearest even integer: a city group whose
column mean is `k + 1/2` has its nulls filled with `k` when `k` is even and
`k + 1` when `k` is odd, not with unconditional round-half-up. -/
theorem imputation_rounds_half_to_even (df : List RawRow) (r : RawRow) (k : ℤ)
    (h0 : getTc r = none)
    (h1 : cityVals df getTc r.city ≠ [])
    (h2 : meanQ (cityVals df getTc r.city) = (k : ℚ) + 1/2) :
    fillCell df getTc r = some ((if k % 2 = 0 then k else k + 1 : ℤ) : ℚ) := by
  have he : (cityVals df getTc r.city).isEmpty = false := by simpa using h1
  unfold fillCell
  rw [h0, he, if_neg (by simp), h2, roundHalfEven_add_half]

/-- Witness for `imputation_rounds_half_to_even`: a mean of 15.5 imputes 16
and a mean of 14.5 imputes 14. -/
theorem imputation_rounds_half_to_even_witness :
    fillCell dfHalfOdd getTc (mkRow "X" none none none none none) = some 16 ∧
    fillCell dfHalfEven getTc (mkRow "X" none none none none none) = some 14 := by
  constructor
  · exact (imputation_rounds_half_to_even dfHalfOdd
      (mkRow "X" none none none none none) 15 rfl (by decide) (by decide)).trans (by decide)
  · exact (imputation_rounds_half_to_even dfHalfEven
      (mkRow "X" none none none none none) 14 rfl (by decide) (by decide)).trans (by decide)

@[simp] lemma sets_city (r : RawRow) (a b c : Option ℚ) :
    (setWs (setHp (setTc r a) b) c).city = r.city := rfl

@[simp] lemma sets_date (r : RawRow) (a b c : Option ℚ) :
    (setWs (setHp (setTc r a) b) c).date = r.date := rfl

@[simp] lemma sets_cond (r : RawRow) (a b c : Option ℚ) :
    (setWs (setHp (setTc r a) b) c).weather_condition = r.weather_condition := rfl

/-- The condition column of a fully mapped row. -/
lemma cond_of_mapped (rr : RawRow) :
    (normalizeCondition (addFahrenheit (parseDateRow rr))).weather_condition
      = convert_to_string_and_capitalize rr.weather_condition := rfl

/-- The date column of a fully mapped row. -/
lemma date_of_mapped (rr : RawRow) :
    (normalizeCondition (addFahrenheit (parseDateRow rr))).date
      = rr.date.bind customDateParser := rfl

/-- The city column of a fully mapped row. -/
lemma city_of_mapped (rr : RawRow) :
    (normalizeCondition (addFahrenheit (parseDateRow rr))).city = rr.city := rfl

/-- C1: every row of the table returned by `clean_weather_data` whose
`temperature_celsius` is non-null has its `temperature_fahrenheit` column
present and equal to `temperature_celsius * 9 / 5 + 32`. -/
theorem fahrenheit_column_correct (df : List RawRow) (out : List CleanRow)
    (r : CleanRow) (c : ℚ)
    (h : clean_weather_data df = some out) (hr : r ∈ out)
    (hc : r.temperature_celsius = some c) :
    r.temperature_fahrenheit = some (c * 9 / 5 + 32) := by
  obtain ⟨d1, d2, d3, -, -, -, hout⟩ := clean_eq h
  subst hout
  rw [List.mem_filter] at hr
  obtain ⟨hr6, -⟩ := hr
  rw [List.mem_map] at hr6
  obtain ⟨r4, hr4, rfl⟩ := hr6
  rw [List.mem_map] at hr4
  obtain ⟨r3, hr3, rfl⟩ := hr4
  simp only [normalizeCondition_tc, addFahrenheit_tc] at hc
  simp [normalizeCondition_tf, addFahrenheit_tf, hc]

/-- Witness for `fahrenheit_column_correct` on a one-row table with
temperature 20 °C: the Fahrenheit column is 68 °F. -/
theorem fahrenheit_column_correct_witness :
    rowW1.temperature_fahrenheit = some ((20 : ℚ) * 9 / 5 + 32) :=
  fahrenheit_column_correct dfW1 [rowW1] rowW1 20 (by decide) (by decide) (by decide)

/-- C7: a row whose `date` string fails every format (parsing to `NaT`) is
retained by `clean_weather_data` whenever the run succeeds: provided its
`weather_condition` is non-null and does not normalize to `"Unknown"`, a
row with the same city, the `NaT` (`none`) date, and the normalized
condition appears in the output; only the null drop of stage 2 and the
`"Unknown"` filter of stage 6 remove rows. -/
theorem unparsed_dates_retained (df : List RawRow) (out : List CleanRow)
    (r : RawRow) (s w : String)
    (h : clean_weather_data df = some out) (hr : r ∈ df)
    (hd : r.date = some s) (hp : customDateParser s = none)
    (hw : r.weather_condition = some w)
    (hu : convert_to_string_and_capitalize (some w) ≠ "Unknown") :
    ∃ rc ∈ out, rc.city = r.city ∧ rc.date = none ∧
      rc.weather_condition = convert_to_string_and_capitalize (some w) := by
  obtain ⟨d1, d2, d3, h1, h2, h3, hout⟩ := clean_eq h
  have e1 := imputeCol_map h1
  have e2 := imputeCol_map h2
  have e3 := imputeCol_map h3
  subst e1 e2 e3 hout
  set rr : RawRow :=
    setWs (setHp (setTc r (fillCell df getTc r))
        (fillCell (df.map fun x => setTc x (fillCell df getTc x)) getHp
          (setTc r (fillCell df getTc r))))
      (fillCell ((df.map fun x => setTc x (fillCell df getTc x)).map fun x =>
          setHp x (fillCell (df.map fun y => setTc y (fillCell df getTc y)) getHp x)) getWs
        (setHp (setTc r (fillCell df getTc r))
          (fillCell (df.map fun x => setTc x (fillCell df getTc x)) getHp
            (setTc r (fillCell df getTc r))))) with hrr
  have m3 : rr ∈ ((df.map fun x => setTc x (fillCell df getTc x)).map fun x =>
      setHp x (fillCell (df.map fun y => setTc y (fillCell df getTc y)) getHp x)).map
        fun x => setWs x (fillCell ((df.map fun y => setTc y (fillCell df getTc y)).map
          fun y => setHp y (fillCell (df.map fun z => setTc z (fillCell df getTc z)) getHp y))
          getWs x) := by
    exact List.mem_map_of_mem _ (List.mem_map_of_mem _ (List.mem_map_of_mem _ hr))
  have hrrd : rr.date = r.date := rfl
  have hrrw : rr.weather_condition = r.weather_condition := rfl
  have hrrc : rr.city = r.city := rfl
  have m4 : rr ∈ dropNullDateCond (((df.map fun x => setTc x (fillCell df getTc x)).map
      fun x => setHp x (fillCell (df.map fun y => setTc y (fillCell df getTc y)) getHp x)).map
        fun x => setWs x (fillCell ((df.map fun y => setTc y (fillCell df getTc y)).map
          fun y => setHp y (fillCell (df.map fun z => setTc z (fillCell df getTc z)) getHp y))
          getWs x)) := by
    rw [dropNullDateCond, List.mem_filter]
    refine ⟨m3, ?_⟩
    simp [hrrd, hrrw, hd, hw]
  refine ⟨normalizeCondition (addFahrenheit (parseDateRow rr)), ?_, ?_, ?_, ?_⟩
  · rw [List.mem_filter]
    refine ⟨List.mem_map_of_mem _ (List.mem_map_of_mem _ (List.mem_map_of_mem _ m4)), ?_⟩
    simp [cond_of_mapped, hrrw, hw, hu]
  · rw [city_of_mapped, hrrc]
  · rw [date_of_mapped, hrrd, hd, Option.some_bind, hp]
  · rw [cond_of_mapped, hrrw, hw]

/-- Witness for `unparsed_dates_retained`: the `"junk"` date row survives
cleaning with a `NaT` date. -/
theorem unparsed_dates_retained_witness :
    ∃ rc ∈ [rowW7], rc.city = (mkRow "X" (some "junk") (some "rain")
        (some 1) (some 2) (some 3)).city ∧ rc.date = none ∧
      rc.weather_condition = convert_to_string_and_capitalize (some "rain") :=
  unparsed_dates_retained dfW7 [rowW7]
    (mkRow "X" (some "junk") (some "rain") (some 1) (some 2) (some 3)) "junk" "rain"
    (by decide) (by decide) (by decide) (by decide) (by decide) (by decide)

set_option maxRecDepth 8000 in
/-- Any case/whitespace variant of `"unknown"` normalizes to the canonical
`"Unknown"`. -/
lemma unknownVariant_normalizes (s : String) (h : isUnknownVariant s = true) :
    convert_to_string_and_capitalize (some s) = "Unknown" := by
  have hm : pyStrip s.toList ∈ caseVariants "unknown".toList :=
    List.mem_of_elem_eq_true (by simpa [isUnknownVariant, List.contains] using h)
  have hall : ∀ l ∈ caseVariants "unknown".toList, pyTitle l = "Unknown".toList := by
    decide
  show String.mk (pyTitle (pyStrip s.toList)) = "Unknown"
  rw [hall _ hm]
  decide

/-- C3 (amended): whenever `clean_weather_data` returns a table, no row of
it has `weather_condition = "Unknown"` (exact, case-sensitive match), and an
input table in which every row's `weather_condition` is a case/whitespace
variant of `"unknown"` yields an empty cleaned table provided the run
succeeds (i.e. the numeric imputation does not raise on an all-null city
group). -/
theorem no_unknown_rows :
    (∀ (df : List RawRow) (out : List CleanRow) (r : CleanRow),
        clean_weather_data df = some out → r ∈ out →
        r.weather_condition ≠ "Unknown") ∧
    (∀ (df : List RawRow) (out : List CleanRow),
        clean_weather_data df = some out →
        (∀ r ∈ df, ∃ s, r.weather_condition = some s ∧ isUnknownVariant s = true) →
        out = []) := by
  constructor
  · intro df out r h hr
    obtain ⟨d1, d2, d3, -, -, -, hout⟩ := clean_eq h
    subst hout
    rw [List.mem_filter] at hr
    simpa using hr.2
  · intro df out h hall
    obtain ⟨d1, d2, d3, h1, h2, h3, hout⟩ := clean_eq h
    have e1 := imputeCol_map h1
    have e2 := imputeCol_map h2
    have e3 := imputeCol_map h3
    subst e1 e2 e3 hout
    rw [List.filter_eq_nil_iff]
    intro r6 hr6
    rw [List.mem_map] at hr6
    obtain ⟨r4, hr4, rfl⟩ := hr6
    rw [List.mem_map] at hr4
    obtain ⟨rp, hrp, rfl⟩ := hr4
    rw [List.mem_map] at hrp
    obtain ⟨rr, hrr, rfl⟩ := hrp
    rw [dropNullDateCond, List.mem_filter] at hrr
    obtain ⟨hrr3, -⟩ := hrr
    rw [List.mem_map] at hrr3
    obtain ⟨rb, hrb, rfl⟩ := hrr3
    rw [List.mem_map] at hrb
    obtain ⟨ra, hra, rfl⟩ := hrb
    rw [List.mem_map] at hra
    obtain ⟨r0, hr0, rfl⟩ := hra
    obtain ⟨s, hs, hv⟩ := hall r0 hr0
    simp [cond_of_mapped, sets_cond, hs, unknownVariant_normalizes s hv]

/-- C3 (counterexample): a table in which every `weather_condition` is a
variant of `"unknown"` need not yield an empty cleaned table: if some city
group is entirely null in a numeric column, `clean_weather_data` raises
(`round` of a NaN mean) instead of returning an empty table. -/
theorem no_unknown_rows_counterexample :
    (∀ r ∈ dfU0, ∃ s, r.weather_condition = some s ∧ isUnknownVariant s = true) ∧
    clean_weather_data dfU0 = none ∧
    clean_weather_data dfU0 ≠ some [] := by
  refine ⟨?_, by decide, by decide⟩
  intro r hr
  simp only [dfU0, List.mem_singleton] at hr
  subst hr
  exact ⟨"unknown", rfl, by decide⟩

/-- Witness for `no_unknown_rows`: a cleaned `"Rain"` row is not
`"Unknown"`, and an all-`" UNKNOWN "` table cleans to the empty table. -/
theorem no_unknown_rows_witness :
    rowW3.weather_condition ≠ "Unknown" ∧ ([] : List CleanRow) = [] := by
  constructor
  · exact no_unknown_rows.1 dfW3 [rowW3] rowW3 (by decide) (by decide)
  · exact no_unknown_rows.2 dfU1 [] (by decide) (fun r hr => by
      simp only [dfU1, List.mem_singleton] at hr
      subst hr
      exact ⟨" UNKNOWN ", rfl, by decide⟩)

/-! ## Top-5 aggregation -/

/-- The descending-mean comparison is total. -/
lemma optBle_total (a b : Option ℚ) : optBle a b = true ∨ optBle b a = true := by
  cases a with
  | none => exact Or.inl rfl
  | some x =>
    cases b with
    | none => exact Or.inr rfl
    | some y =>
      simpa [optBle] using le_total x y

/-- The descending-mean comparison is transitive. -/
lemma optBle_trans {a b c : Option ℚ} (h1 : optBle a b = true) (h2 : optBle b c = true) :
    optBle a c = true := by
  cases a with
  | none => rfl
  | some x =>
    cases b with
    | none => exact absurd h1 (by simp [optBle])
    | some y =>
      cases c with
      | none => exact absurd h2 (by simp [optBle])
      | some z =>
        simp only [optBle, decide_eq_true_eq] at h1 h2 ⊢
        exact le_trans h1 h2

/-- C5 (amended): the top-5 report computes the per-city mean of
`temperature_celsius` over the cleaned table, sorts descending by mean and
returns the first 5 entries (fewer if fewer cities exist); ties follow the
order of the `groupby` output, which is sorted alphabetically by city name
(`sort=True`), not first-encountered input order.  The 6-city scenario with
means 30, 28, 25, 20, 18, 10 yields exactly the first five in descending
order, and equal-mean cities `B` (first encountered) and `A` come out as
`A` then `B`. -/
theorem top_five_by_mean :
    (∀ df : List CleanRow, (topFiveAvgTemp df).length = min 5 (sortedCities df).length) ∧
    (∀ df : List CleanRow,
      (topFiveAvgTemp df).Pairwise (fun a b => optBle b.2 a.2 = true)) ∧
    topFiveAvgTemp sixDf =
      [("A", some 30), ("B", some 28), ("C", some 25), ("D", some 20), ("E", some 18)] ∧
    topFiveAvgTemp tieDf = [("A", some 10), ("B", some 10)] := by
  refine ⟨?_, ?_, by decide, by decide⟩
  · intro df
    rw [topFiveAvgTemp, List.length_take]
    congr 1
    rw [sortDescByMean, (List.perm_insertionSort _ _).length_eq, avgTempByCity,
      List.length_map]
  · intro df
    haveI : IsTotal (String × Option ℚ) (fun a b => optBle b.2 a.2 = true) :=
      ⟨fun a b => optBle_total b.2 a.2⟩
    haveI : IsTrans (String × Option ℚ) (fun a b => optBle b.2 a.2 = true) :=
      ⟨fun _ _ _ h1 h2 => optBle_trans h2 h1⟩
    have hs : List.Sorted (fun a b : String × Option ℚ => optBle b.2 a.2 = true)
        (sortDescByMean (avgTempByCity df)) := List.sorted_insertionSort _ _
    exact List.Pairwise.sublist (List.take_sublist _ _) hs

/-- C5 (counterexample): equal means are not tie-broken by first-encountered
city: with rows for `B` then `A` (both mean 10), the report lists `A` before
`B` — `groupby('city')` has already reordered the groups alphabetically
before the sort. -/
theorem top_five_tiebreak_counterexample :
    topFiveAvgTemp tieDf = [("A", some 10), ("B", some 10)] ∧
    topFiveAvgTemp tieDf ≠ [("B", some 10), ("A", some 10)] := by
  exact ⟨by decide, by decide⟩

/-! ## ISO serialization and the round-trip property -/

lemma digitChar_isDigit : ∀ k, k < 10 → (Nat.digitChar k).isDigit = true := by decide

lemma digitChar_toNat : ∀ k, k < 10 → (Nat.digitChar k).toNat = k + 48 := by decide

/-- Splitting a digit run followed by a non-digit. -/
lemma span_append {l : List Char} {c : Char} {r : List Char}
    (hl : ∀ x ∈ l, x.isDigit = true) (hc : c.isDigit = false) :
    (l ++ c :: r).takeWhile Char.isDigit = l ∧
      (l ++ c :: r).dropWhile Char.isDigit = c :: r := by
  induction l with
  | nil => simp [List.takeWhile_cons, List.dropWhile_cons, hc]
  | cons a as ih =>
    have ha := hl a (by simp)
    have ih2 := ih (fun x hx => hl x (by simp [hx]))
    simp [List.takeWhile_cons, List.dropWhile_cons, ha, ih2.1, ih2.2]

/-- Splitting an all-digit string. -/
lemma span_all {l : List Char} (hl : ∀ x ∈ l, x.isDigit = true) :
    l.takeWhile Char.isDigit = l ∧ l.dropWhile Char.isDigit = [] := by
  induction l with
  | nil => simp
  | cons a as ih =>
    have ha := hl a (by simp)
    have ih2 := ih (fun x hx => hl x (by simp [hx]))
    simp [List.takeWhile_cons, List.dropWhile_cons, ha, ih2.1, ih2.2]

lemma pad2_digits {n : ℕ} (hn : n ≤ 99) : ∀ x ∈ pad2 n, x.isDigit = true := by
  intro x hx
  simp only [pad2, List.mem_cons, List.mem_singleton, List.not_mem_nil, or_false] at hx
  rcases hx with h | h <;> subst h <;> exact digitChar_isDigit _ (by omega)

lemma pad4_digits {n : ℕ} (hn : n ≤ 9999) : ∀ x ∈ pad4 n, x.isDigit = true := by
  intro x hx
  simp only [pad4, List.mem_cons, List.mem_singleton, List.not_mem_nil, or_false] at hx
  rcases hx with h | h | h | h <;> subst h <;> exact digitChar_isDigit _ (by omega)

lemma digitsVal_pad2 {n : ℕ} (hn : n ≤ 99) : digitsVal (pad2 n) = n := by
  have h1 := digitChar_toNat (n / 10) (by omega)
  have h2 := digitChar_toNat (n % 10) (by omega)
  simp [digitsVal, pad2, h1, h2]
  omega

lemma digitsVal_pad4 {n : ℕ} (hn : n ≤ 9999) : digitsVal (pad4 n) = n := by
  have h1 := digitChar_toNat (n / 1000) (by omega)
  have h2 := digitChar_toNat (n / 100 % 10) (by omega)
  have h3 := digitChar_toNat (n / 10 % 10) (by omega)
  have h4 := digitChar_toNat (n % 10) (by omega)
  simp [digitsVal, pad4, h1, h2, h3, h4]
  omega

/-- `%d` first (formats 1, 2, 5) never matches a `YYYY-MM-DD` string: the
leading run has four digits. -/
lemma parse3_dayfirst_iso {f2 f3 : DateField} {sep : Char} {y m d : ℕ}
    (hy : y ≤ 9999) :
    parse3 .day f2 f3 sep (isoChars y m d) = none := by
  have ht := (span_append (l := pad4 y) (c := '-') (r := pad2 m ++ '-' :: pad2 d)
    (pad4_digits hy) (by decide)).1
  simp [parse3, parseField, isoChars, ht, show (pad4 y).length = 4 from rfl]

/-- `%m` first (formats 3, 6, 7) never matches a `YYYY-MM-DD` string. -/
lemma parse3_monthfirst_iso {f2 f3 : DateField} {sep : Char} {y m d : ℕ}
    (hy : y ≤ 9999) :
    parse3 .month f2 f3 sep (isoChars y m d) = none := by
  have ht := (span_append (l := pad4 y) (c := '-') (r := pad2 m ++ '-' :: pad2 d)
    (pad4_digits hy) (by decide)).1
  simp [parse3, parseField, isoChars, ht, show (pad4 y).length = 4 from rfl]

lemma daysInMonth_le_31 (y m : ℕ) : daysInMonth y m ≤ 31 := by
  unfold daysInMonth
  split
  · split <;> omega
  · split <;> omega

/-- `%Y-%m-%d` parses the ISO serialization of a valid in-bounds date. -/
lemma parse3_ymd_iso {y m d : ℕ} (hy1 : 1 ≤ y) (hy : y ≤ 9999)
    (hm1 : 1 ≤ m) (hm : m ≤ 12) (hd1 : 1 ≤ d) (hd : d ≤ daysInMonth y m)
    (hb : tsInBounds y m d = true) :
    parse3 .year .month .day '-' (isoChars y m d) = some ⟨y, m, d⟩ := by
  have hm99 : m ≤ 99 := by omega
  have hd99 : d ≤ 99 := by have := daysInMonth_le_31 y m; omega
  have hd31 : d ≤ 31 := le_trans hd (daysInMonth_le_31 y m)
  have hv : validDate y m d = true := by
    unfold validDate
    simp [hy1, hy, hm1, hm, hd1, hd]
  have hYear : parseField .year (isoChars y m d)
      = some (y, '-' :: (pad2 m ++ '-' :: pad2 d)) := by
    have hty := span_append (l := pad4 y) (c := '-') (r := pad2 m ++ '-' :: pad2 d)
      (pad4_digits hy) (by decide)
    simp [parseField, isoChars, hty.1, hty.2, show (pad4 y).length = 4 from rfl,
      digitsVal_pad4 hy]
  have hMonth : parseField .month (pad2 m ++ '-' :: pad2 d) = some (m, '-' :: pad2 d) := by
    have htm := span_append (l := pad2 m) (c := '-') (r := pad2 d)
      (pad2_digits hm99) (by decide)
    simp [parseField, htm.1, htm.2, show (pad2 m).length = 2 from rfl,
      digitsVal_pad2 hm99, hm1, hm]
  have hDay : parseField .day (pad2 d) = some (d, []) := by
    have htd := span_all (pad2_digits hd99)
    simp [parseField, htd.1, htd.2, show (pad2 d).length = 2 from rfl,
      digitsVal_pad2 hd99, hd1, hd31]
  have g1 : getField .year [(DateField.year, y), (DateField.month, m), (DateField.day, d)]
      = y := rfl
  have g2 : getField .month [(DateField.year, y), (DateField.month, m), (DateField.day, d)]
      = m := rfl
  have g3 : getField .day [(DateField.year, y), (DateField.month, m), (DateField.day, d)]
      = d := rfl
  simp [parse3, hYear, hMonth, hDay, g1, g2, g3, toTimestamp, hv, hb]

/-- C9 (amended): parsing is idempotent on ISO `YYYY-MM-DD` serializations
of calendar dates within the pandas `Timestamp` range (1677-09-22 through
2262-04-11): the day-first and month-first patterns tried earlier never
match such a string, `%Y-%m-%d` matches, and the parse returns the same
calendar date.  (Outside the `Timestamp` range the parse raises
`OutOfBoundsDatetime` internally and yields `NaT` instead.) -/
theorem iso_roundtrip_parse (y m d : ℕ) (hm1 : 1 ≤ m) (hm : m ≤ 12)
    (hd1 : 1 ≤ d) (hd : d ≤ daysInMonth y m) (hb : tsInBounds y m d = true) :
    customDateParser (isoString y m d) = some ⟨y, m, d⟩ := by
  have hbp := hb
  unfold tsInBounds lexLe at hbp
  simp only [Bool.and_eq_true, decide_eq_true_eq] at hbp
  have hy1 : 1 ≤ y := by omega
  have hy : y ≤ 9999 := by omega
  unfold customDateParser
  rw [show (isoString y m d).toList = isoChars y m d from rfl]
  simp [formatList, firstParse, tryFormat, parse3_dayfirst_iso hy,
    parse3_monthfirst_iso hy,
    parse3_ymd_iso hy1 hy hm1 hm hd1 hd hb]

/-- Witness for `iso_roundtrip_parse`: the leap day 2020-02-29 round-trips. -/
theorem iso_roundtrip_parse_witness :
    customDateParser (isoString 2020 2 29) = some ⟨2020, 2, 29⟩ :=
  iso_roundtrip_parse 2020 2 29 (by decide) (by decide) (by decide) (by decide) (by decide)

/-- C9 (counterexample): the round-trip fails for a four-digit-year
calendar date outside the pandas `Timestamp` range: `"1000-05-05"` is the
ISO serialization of the valid date 1000-05-05, yet every format attempt
raises (`%Y-%m-%d` matches but the `Timestamp` is out of bounds, an
`OutOfBoundsDatetime` `ValueError`), so the parser returns `NaT`, not the
date itself. -/
theorem iso_roundtrip_counterexample :
    isoString 1000 5 5 = "1000-05-05" ∧
    validDate 1000 5 5 = true ∧
    customDateParser "1000-05-05" = none ∧
    customDateParser (isoString 1000 5 5) ≠ some ⟨1000, 5, 5⟩ := by
  refine ⟨by decide, by decide, by decide, by decide⟩
